import Mathlib

/-
Verification of the persistence core of `target_postgres/postgres.py`
(`PostgresTarget`): the sequence-ordered delete-and-insert merge, the
recursive record denesting, the schema reconciler (`merge_put_schemas`),
the batch orchestrator (`write_batch`), the CSV row builder
(`persist_rows`) and the sidecar-metadata reader/writer
(`create_table` / `get_table_metadata`), shallowly embedded as
executable Lean definitions.
-/

namespace TargetPostgres

/-! ### Generic association-list helpers

Python `dict` is modelled as an insertion-ordered association list with
unique keys.  `dict_set` is `d[k] = v` (update in place, else append);
`List.lookup` is `d.get(k)` / `k in d`. -/

def dict_set {α : Type} (r : List (String × α)) (k : String) (v : α) :
    List (String × α) :=
  match r with
  | [] => [(k, v)]
  | (k', v') :: rest =>
      if k' == k then (k', v) :: rest else (k', v') :: dict_set rest k v

theorem lookup_dict_set_self {α : Type} (r : List (String × α)) (k : String) (v : α) :
    (dict_set r k v).lookup k = some v := by
  induction r with
  | nil => simp [dict_set, List.lookup]
  | cons hd tl ih =>
      obtain ⟨k', v'⟩ := hd
      by_cases h : k' = k
      · subst h; simp [dict_set, List.lookup]
      · have h1 : (k' == k) = false := beq_eq_false_iff_ne.mpr h
        have h2 : (k == k') = false := beq_eq_false_iff_ne.mpr (Ne.symm h)
        simp [dict_set, h1, List.lookup, h2, ih]

/-! ### The merge statement of `get_update_sql` (postgres.py lines 321-408)

`get_update_sql` emits, for one target table and one staging (temp)
table:

```
WITH "pks" AS (
    SELECT DISTINCT ON (K) K
    FROM temp JOIN target
      ON target.K = temp.K AND temp._sdc_sequence >= target._sdc_sequence
    ORDER BY K, temp._sdc_sequence DESC)
DELETE FROM target USING "pks" WHERE target.K = "pks".K;
INSERT INTO target (
    SELECT DISTINCT ON (K ∪ S) temp.*
    FROM temp LEFT JOIN target ON target.K = temp.K
    WHERE target.K IS NULL
    ORDER BY (K ∪ S), temp._sdc_sequence DESC);
DROP TABLE temp;
```

where `K` is the key-property column tuple and `S` the
`_sdc_level_<N>_id` subkey column tuple.  A table is a list of rows; a
row's `key` field stands for its `K` tuple, `sub` for its `S` tuple,
`seq` for `_sdc_sequence` and `payload` for the remaining columns.
The three statements run sequentially inside one transaction, so the
`INSERT` statement's left join sees the target after the `DELETE`. -/

structure TRow where
  key : Nat
  sub : Nat
  seq : Int
  payload : Nat
deriving DecidableEq, Repr

/-- The `"pks"` CTE membership test: key `k` is deleted iff some temp
row and some target row share key `k` with
`temp._sdc_sequence >= target._sdc_sequence`. -/
def pks_match (temp target : List TRow) (k : Nat) : Bool :=
  temp.any fun t =>
    t.key == k && target.any fun g => g.key == k && g.seq ≤ t.seq

/-- Statement `DELETE FROM target USING "pks" WHERE target.K = "pks".K`. -/
def delete_phase (temp target : List TRow) : List TRow :=
  target.filter fun g => !(pks_match temp target g.key)

/-- The `INSERT` statement's `FROM temp LEFT JOIN target … WHERE
target.K IS NULL`: temp rows whose key no longer appears in the
(post-delete) target. -/
def insert_candidates (temp target' : List TRow) : List TRow :=
  temp.filter fun t => !(target'.any fun g => g.key == t.key)

/-- Grouping for `DISTINCT ON`: on `K` alone when the table has no
`_sdc_level_<N>_id` columns (`subkeys == []`), on `K ∪ S` otherwise. -/
def rowGroupEq (useSub : Bool) (a b : TRow) : Bool :=
  a.key == b.key && (!useSub || a.sub == b.sub)

/-- Update one `DISTINCT ON` group with a further row `t`: the row with
the highest `_sdc_sequence` survives (`ORDER BY … _sdc_sequence DESC`),
ties resolved towards the later staged row. -/
def pick_update (useSub : Bool) (t : TRow) : List TRow → List TRow
  | [] => [t]
  | g :: gs =>
      if rowGroupEq useSub t g then (if g.seq ≤ t.seq then t else g) :: gs
      else g :: pick_update useSub t gs

/-- Clause `SELECT DISTINCT ON (K ∪ S) … ORDER BY (K ∪ S), temp._sdc_sequence
DESC`: one surviving row per `(K, S)` group. -/
def distinct_on (useSub : Bool) (rows : List TRow) : List TRow :=
  rows.foldl (fun acc t => pick_update useSub t acc) []

/-- The whole multi-statement batch emitted by `get_update_sql`,
applied to the target table state. -/
def apply_update_sql (useSub : Bool) (temp target : List TRow) : List TRow :=
  let remaining := delete_phase temp target
  remaining ++ distinct_on useSub (insert_candidates temp remaining)

theorem mem_pick_update {useSub : Bool} {t x : TRow} :
    ∀ {acc : List TRow}, x ∈ pick_update useSub t acc → x = t ∨ x ∈ acc := by
  intro acc
  induction acc with
  | nil => intro h; simpa [pick_update] using h
  | cons g gs ih =>
      intro h
      simp only [pick_update] at h
      by_cases h1 : rowGroupEq useSub t g
      · rw [if_pos h1] at h
        by_cases h2 : g.seq ≤ t.seq
        · rw [if_pos h2] at h
          rcases List.mem_cons.mp h with h' | h'
          · exact Or.inl h'
          · exact Or.inr (List.mem_cons_of_mem _ h')
        · rw [if_neg h2] at h
          rcases List.mem_cons.mp h with h' | h'
          · exact Or.inr (by simp [h'])
          · exact Or.inr (List.mem_cons_of_mem _ h')
      · rw [if_neg h1] at h
        rcases List.mem_cons.mp h with h' | h'
        · exact Or.inr (by simp [h'])
        · rcases ih h' with h'' | h''
          · exact Or.inl h''
          · exact Or.inr (List.mem_cons_of_mem _ h'')

theorem mem_foldl_pick {useSub : Bool} :
    ∀ (rows acc : List TRow) (x : TRow),
      x ∈ rows.foldl (fun a t => pick_update useSub t a) acc →
      x ∈ acc ∨ x ∈ rows := by
  intro rows
  induction rows with
  | nil =>
      intro acc x h
      rw [List.foldl_nil] at h
      exact Or.inl h
  | cons r rs ih =>
      intro acc x h
      rw [List.foldl_cons] at h
      rcases ih (pick_update useSub r acc) x h with h' | h'
      · rcases mem_pick_update h' with h'' | h''
        · exact Or.inr (by simp [h''])
        · exact Or.inl h''
      · exact Or.inr (List.mem_cons_of_mem _ h')

theorem mem_distinct_on {useSub : Bool} {rows : List TRow} {x : TRow}
    (h : x ∈ distinct_on useSub rows) : x ∈ rows := by
  rcases mem_foldl_pick rows [] x h with h' | h'
  · simp at h'
  · exact h'

theorem mem_delete_phase {temp target : List TRow} {x : TRow} :
    x ∈ delete_phase temp target ↔
      x ∈ target ∧ pks_match temp target x.key = false := by
  simp [delete_phase, List.mem_filter, Bool.not_eq_true']

theorem mem_insert_candidates {temp target' : List TRow} {x : TRow} :
    x ∈ insert_candidates temp target' ↔
      x ∈ temp ∧ (target'.any fun g => g.key == x.key) = false := by
  simp [insert_candidates, List.mem_filter, Bool.not_eq_true']

/-- A freshly inserted row re-joins the `"pks"` CTE on a second run of
the same merge: it comes from the temp table, so it matches itself with
an equal (hence `>=`) `_sdc_sequence`. -/
theorem pks_match_append_true {useSub : Bool} {temp target : List TRow} {x : TRow}
    (hx : x ∈ distinct_on useSub (insert_candidates temp (delete_phase temp target))) :
    pks_match temp
      (delete_phase temp target ++
        distinct_on useSub (insert_candidates temp (delete_phase temp target)))
      x.key = true := by
  have hxt : x ∈ temp := (mem_insert_candidates.mp (mem_distinct_on hx)).1
  simp only [pks_match, List.any_eq_true, Bool.and_eq_true, beq_iff_eq,
    decide_eq_true_eq]
  exact ⟨x, hxt, rfl, x, List.mem_append.mpr (Or.inr hx), rfl, le_refl _⟩

/-- A target row that survived the delete phase still survives a second
run of the same merge: no temp row has a `>=` sequence against it, and
the inserted rows all carry keys absent from the survivors. -/
theorem pks_match_append_false {useSub : Bool} {temp target : List TRow} {d : TRow}
    (hd : d ∈ delete_phase temp target) :
    pks_match temp
      (delete_phase temp target ++
        distinct_on useSub (insert_candidates temp (delete_phase temp target)))
      d.key = false := by
  obtain ⟨hdt, hdm⟩ := mem_delete_phase.mp hd
  rw [Bool.eq_false_iff]
  intro hcontra
  simp only [pks_match, List.any_eq_true, Bool.and_eq_true, beq_iff_eq,
    decide_eq_true_eq] at hcontra
  obtain ⟨t, ht_mem, ht_key, g, hg_mem, hg_key, hg_seq⟩ := hcontra
  rcases List.mem_append.mp hg_mem with hgD | hgI
  · have hgt : g ∈ target := (mem_delete_phase.mp hgD).1
    have hmatch : pks_match temp target d.key = true := by
      simp only [pks_match, List.any_eq_true, Bool.and_eq_true, beq_iff_eq,
        decide_eq_true_eq]
      exact ⟨t, ht_mem, ht_key, g, hgt, hg_key, hg_seq⟩
    rw [hdm] at hmatch
    exact Bool.false_ne_true hmatch
  · obtain ⟨-, hnone⟩ := mem_insert_candidates.mp (mem_distinct_on hgI)
    have hsome : ((delete_phase temp target).any fun g' => g'.key == g.key) = true := by
      simp only [List.any_eq_true, beq_iff_eq]
      exact ⟨d, hd, by rw [hg_key]⟩
    rw [hnone] at hsome
    exact Bool.false_ne_true hsome

/-- Running the same merge a second time deletes exactly the rows the
first run inserted, leaving the first run's survivors intact. -/
theorem delete_phase_stable (useSub : Bool) (temp target : List TRow) :
    delete_phase temp (apply_update_sql useSub temp target) =
      delete_phase temp target := by
  have hsplit :
      delete_phase temp (apply_update_sql useSub temp target) =
        (delete_phase temp target).filter
            (fun g => !(pks_match temp (apply_update_sql useSub temp target) g.key)) ++
          (distinct_on useSub (insert_candidates temp (delete_phase temp target))).filter
            (fun g => !(pks_match temp (apply_update_sql useSub temp target) g.key)) := by
    rw [show delete_phase temp (apply_update_sql useSub temp target) =
        (apply_update_sql useSub temp target).filter
          (fun g => !(pks_match temp (apply_update_sql useSub temp target) g.key)) from rfl]
    rw [show apply_update_sql useSub temp target =
        delete_phase temp target ++
          distinct_on useSub (insert_candidates temp (delete_phase temp target)) from rfl,
      List.filter_append]
  rw [hsplit]
  have h1 : (delete_phase temp target).filter
      (fun g => !(pks_match temp (apply_update_sql useSub temp target) g.key)) =
        delete_phase temp target := by
    apply List.filter_eq_self.mpr
    intro a ha
    rw [show apply_update_sql useSub temp target =
        delete_phase temp target ++
          distinct_on useSub (insert_candidates temp (delete_phase temp target)) from rfl,
      pks_match_append_false ha]
    rfl
  have h2 : (distinct_on useSub (insert_candidates temp (delete_phase temp target))).filter
      (fun g => !(pks_match temp (apply_update_sql useSub temp target) g.key)) = [] := by
    apply List.filter_eq_nil_iff.mpr
    intro a ha
    rw [show apply_update_sql useSub temp target =
        delete_phase temp target ++
          distinct_on useSub (insert_candidates temp (delete_phase temp target)) from rfl,
      pks_match_append_true ha]
    simp
  rw [h1, h2, List.append_nil]

/-- C1: For every stream buffer (staged temp-table contents) and
every reachable target-table state, running the merge emitted by
`get_update_sql` on the same staged batch twice yields the same
target-table contents as running it once: the second run's `"pks"` CTE
matches every re-inserted row against itself with an equal
`_sdc_sequence`, so the `>=` delete branch removes exactly the rows the
first run inserted and the insert phase re-inserts the identical
deduplicated rows. -/
theorem write_batch_merge_idempotent (useSub : Bool) (temp target : List TRow) :
    apply_update_sql useSub temp (apply_update_sql useSub temp target) =
      apply_update_sql useSub temp target := by
  calc apply_update_sql useSub temp (apply_update_sql useSub temp target)
      = delete_phase temp (apply_update_sql useSub temp target) ++
          distinct_on useSub (insert_candidates temp
            (delete_phase temp (apply_update_sql useSub temp target))) := rfl
    _ = delete_phase temp target ++
          distinct_on useSub (insert_candidates temp (delete_phase temp target)) := by
          rw [delete_phase_stable]
    _ = apply_update_sql useSub temp target := rfl

/-- C2: If every staged row's `_sdc_sequence` is strictly lower
than the sequence of every previously landed row with the same key,
then the `"pks"` CTE is empty (its join requires
`temp._sdc_sequence >= target._sdc_sequence`), so the merge deletes
nothing: every previously landed row survives unchanged, in place, and
only rows with fresh keys are appended. -/
theorem write_batch_merge_monotone (useSub : Bool) (temp target : List TRow)
    (h : ∀ t ∈ temp, ∀ g ∈ target, t.key = g.key → t.seq < g.seq) :
    apply_update_sql useSub temp target =
      target ++ distinct_on useSub (insert_candidates temp target) := by
  have hdel : delete_phase temp target = target := by
    apply List.filter_eq_self.mpr
    intro a ha
    have hfalse : pks_match temp target a.key = false := by
      rw [Bool.eq_false_iff]
      intro hc
      simp only [pks_match, List.any_eq_true, Bool.and_eq_true, beq_iff_eq,
        decide_eq_true_eq] at hc
      obtain ⟨t, htm, htk, g, hgm, hgk, hseq⟩ := hc
      have hlt := h t htm g hgm (by rw [htk, hgk])
      omega
    rw [hfalse]
    rfl
  calc apply_update_sql useSub temp target
      = delete_phase temp target ++
          distinct_on useSub (insert_candidates temp (delete_phase temp target)) := rfl
    _ = target ++ distinct_on useSub (insert_candidates temp target) := by rw [hdel]

/-- Witness for `write_batch_merge_monotone`: one staged row with
sequence 1 against a landed row with the same key and sequence 10. -/
theorem write_batch_merge_monotone_witness :
    (∀ t ∈ [TRow.mk 1 0 1 5], ∀ g ∈ [TRow.mk 1 0 10 7], t.key = g.key → t.seq < g.seq) ∧
      apply_update_sql true [TRow.mk 1 0 1 5] [TRow.mk 1 0 10 7] =
        [TRow.mk 1 0 10 7] ++
          distinct_on true (insert_candidates [TRow.mk 1 0 1 5] [TRow.mk 1 0 10 7]) :=
  ⟨by decide, write_batch_merge_monotone true _ _ (by decide)⟩

/-! ### Record denesting (postgres.py lines 233-304)

Record payloads are heterogeneous JSON-like values; a Python `dict` is
an insertion-ordered association list (`PgRecord`), and `records_map`
maps each table name to its ordered list of flat rows.

Constants modelled from the spec (§6, identifier conventions), because
`target_postgres.sql_base` and `target_postgres.singer_stream` are not
part of the source tree: `SEPARATOR = "__"`, the `_sdc_sequence`
column, the `_sdc_source_key_<k>` inherited-key prefix, and the
`_sdc_level_<N>_id` level-index template. -/

inductive Value where
  | null
  | bool (b : Bool)
  | int (n : Int)
  | str (s : String)
  | obj (fields : List (String × Value))
  | arr (elems : List Value)

abbrev PgRecord := List (String × Value)

abbrev RecordsMap := List (String × List PgRecord)

/-- Modelled from the spec: `sql_base.SEPARATOR`, the fixed string
`"__"` joining path segments and version suffixes. -/
def SEPARATOR : String := "__"

/-- Modelled from the spec: `singer_stream.SINGER_SEQUENCE`. -/
def SINGER_SEQUENCE : String := "_sdc_sequence"

/-- Modelled from the spec: `singer_stream.SINGER_SOURCE_PK_PREFIX`. -/
def SINGER_SOURCE_PK_PREFIX : String := "_sdc_source_key_"

/-- Modelled from the spec: `singer_stream.SINGER_LEVEL`, the template
`_sdc_level_{}_id` instantiated with a nesting level (or with a digit
pattern when used as a regex in `persist_rows`). -/
def SINGER_LEVEL (n : String) : String := "_sdc_level_" ++ n ++ "_id"

/-- Runtime failure modes of the denesting recursion.  `badCall` is the
`TypeError` raised by line 245 of postgres.py, where `denest_subrecord`
recursively calls itself with six of its eight required positional
arguments.  `typeError` covers indexing or `.items()` on a non-dict;
`keyError` a missing key-property field; `outOfFuel` is the embedding's
recursion bound (Python would recurse further, or forever). -/
inductive DenestError where
  | badCall
  | typeError
  | keyError
  | outOfFuel
deriving DecidableEq, Repr

/-- Python `records_map[table_name].append(record)`, creating the entry first
when absent (postgres.py lines 285-287). -/
def map_append (m : RecordsMap) (t : String) (r : PgRecord) : RecordsMap :=
  match m with
  | [] => [(t, [r])]
  | (t', rs) :: rest =>
      if t' == t then (t', rs ++ [r]) :: rest else (t', rs) :: map_append rest t r

/-- The top-level (`else`) branch of `denest_records` (lines 298-303):
`record_pk_fks[SINGER_SOURCE_PK_PREFIX + key] = record[key]` for each
key property, raising `KeyError` when the record lacks the field. -/
def build_top_pk_fks (record : PgRecord) (acc : PgRecord) :
    List String → Except DenestError PgRecord
  | [] => .ok acc
  | k :: rest =>
      match List.lookup k record with
      | some v => build_top_pk_fks record (dict_set acc (SINGER_SOURCE_PK_PREFIX ++ k) v) rest
      | none => .error .keyError

mutual

/-- Function `denest_subrecord` (postgres.py lines 233-254), its `for prop,
value in record.items()` loop expressed as recursion over the record's
entries.  The `dict` branch is the buggy six-argument self-call of line
245, a `TypeError` at runtime; the `else` branch assigns the value —
`None` included — under the compound path. -/
def denest_subrecord :
    Nat → String → String → PgRecord → PgRecord → RecordsMap → List String →
      PgRecord → Int → Except DenestError (PgRecord × RecordsMap)
  | 0, _, _, _, _, _, _, _, _ => .error .outOfFuel
  | _ + 1, _, _, parent_record, [], records_map, _, _, _ =>
      .ok (parent_record, records_map)
  | fuel + 1, table_name, current_path, parent_record, (prop, value) :: rest,
      records_map, key_properties, pk_fks, level =>
    let next_path := current_path ++ SEPARATOR ++ prop
    match value with
    | .obj _ => .error .badCall
    | .arr elems => do
        let records_map' ← denest_records fuel (table_name ++ SEPARATOR ++ next_path)
          elems records_map key_properties pk_fks (level + 1)
        denest_subrecord fuel table_name current_path parent_record rest
          records_map' key_properties pk_fks level
    | v =>
        denest_subrecord fuel table_name current_path
          (dict_set parent_record next_path v) rest records_map key_properties
          pk_fks level

/-- The `for prop, value in record.items()` loop of `denest_record`
(postgres.py lines 258-283), accumulating `denested_record`.  A `None`
value is skipped (line 280, `## nulls mess up nested objects`); a dict
descends into `denest_subrecord`; a list spawns a child table. -/
def denest_record_loop :
    Nat → String → Option String → PgRecord → PgRecord → RecordsMap →
      List String → PgRecord → Int → Except DenestError (PgRecord × RecordsMap)
  | 0, _, _, _, _, _, _, _, _ => .error .outOfFuel
  | _ + 1, _, _, denested_record, [], records_map, _, _, _ =>
      .ok (denested_record, records_map)
  | fuel + 1, table_name, current_path, denested_record, (prop, value) :: rest,
      records_map, key_properties, pk_fks, level =>
    let next_path := match current_path with
      | some cp => if cp.isEmpty then prop else cp ++ SEPARATOR ++ prop
      | none => prop
    match value with
    | .obj subfields => do
        let st ← denest_subrecord fuel table_name next_path denested_record
          subfields records_map key_properties pk_fks level
        denest_record_loop fuel table_name current_path st.1 rest st.2
          key_properties pk_fks level
    | .arr elems => do
        let records_map' ← denest_records fuel (table_name ++ SEPARATOR ++ next_path)
          elems records_map key_properties pk_fks (level + 1)
        denest_record_loop fuel table_name current_path denested_record rest
          records_map' key_properties pk_fks level
    | .null =>
        denest_record_loop fuel table_name current_path denested_record rest
          records_map key_properties pk_fks level
    | v =>
        denest_record_loop fuel table_name current_path
          (dict_set denested_record next_path v) rest records_map key_properties
          pk_fks level

/-- Function `denest_record` (postgres.py lines 256-287): flatten one record
into `denested_record` and append it to `records_map[table_name]`.
`record.items()` on a non-dict is a runtime `TypeError`. -/
def denest_record :
    Nat → String → Option String → Value → RecordsMap → List String →
      PgRecord → Int → Except DenestError RecordsMap
  | 0, _, _, _, _, _, _, _ => .error .outOfFuel
  | fuel + 1, table_name, current_path, record, records_map, key_properties,
      pk_fks, level =>
    match record with
    | .obj fields => do
        let st ← denest_record_loop fuel table_name current_path [] fields
          records_map key_properties pk_fks level
        .ok (map_append st.2 table_name st.1)
    | _ => .error .typeError

/-- The `for record in records` loop of `denest_records` (postgres.py
lines 289-304), carrying `row_index`.  With a truthy `pk_fks` (Python:
neither `None` nor `{}`, modelled as a non-empty bag) the inherited
keys plus the `_sdc_level_<level>_id` ordinal are written into the
record before it is denested and `row_index` advances; at top level the
bag is rebuilt from the key properties and `_sdc_sequence` and the
record is left unmodified. -/
def denest_records_loop :
    Nat → String → List Value → RecordsMap → List String → PgRecord → Int →
      Nat → Except DenestError RecordsMap
  | 0, _, _, _, _, _, _, _ => .error .outOfFuel
  | _ + 1, _, [], records_map, _, _, _, _ => .ok records_map
  | fuel + 1, table_name, record :: rest, records_map, key_properties, pk_fks,
      level, row_index =>
    match record with
    | .obj fields =>
        if pk_fks.isEmpty then do
          let bag ← build_top_pk_fks fields [] key_properties
          let bag := match List.lookup SINGER_SEQUENCE fields with
            | some v => dict_set bag SINGER_SEQUENCE v
            | none => bag
          let records_map' ← denest_record fuel table_name none (.obj fields)
            records_map key_properties bag level
          denest_records_loop fuel table_name rest records_map' key_properties
            pk_fks level row_index
        else do
          let record_pk_fks :=
            dict_set pk_fks (SINGER_LEVEL (toString level)) (.int (Int.ofNat row_index))
          let fields' := record_pk_fks.foldl (fun r kv => dict_set r kv.1 kv.2) fields
          let records_map' ← denest_record fuel table_name none (.obj fields')
            records_map key_properties record_pk_fks level
          denest_records_loop fuel table_name rest records_map' key_properties
            pk_fks level (row_index + 1)
    | _ => .error .typeError

/-- Function `denest_records` entry point (default arguments `pk_fks=None`,
`level=-1` supplied by `write_batch`), starting `row_index` at 0. -/
def denest_records :
    Nat → String → List Value → RecordsMap → List String → PgRecord → Int →
      Except DenestError RecordsMap
  | 0, _, _, _, _, _, _ => .error .outOfFuel
  | fuel + 1, table_name, records, records_map, key_properties, pk_fks, level =>
      denest_records_loop fuel table_name records records_map key_properties
        pk_fks level 0

end

/-- C5 counterexample: The claim says a null value at a leaf
inside a nested object is dropped, with no key for the leaf's compound
column name materialized in the flattened row.  Denesting the record
`{id: 1, a: {b: null}}` (stream `t`, key properties `[id]`) refutes it:
the `else` branch of `denest_subrecord` has no null check, so the
flattened row carries the compound key `a__b` bound to null. -/
theorem denest_null_subobject_leaf_counterexample :
    denest_records 32 "t"
        [.obj [("id", .int 1), ("a", .obj [("b", .null)])]] [] ["id"] [] (-1) =
      .ok [("t", [[("id", Value.int 1), ("a__b", Value.null)]])] ∧
    List.lookup "a__b" [("id", Value.int 1), ("a__b", Value.null)] =
      some Value.null := by
  exact ⟨rfl, rfl⟩

/-- C5 amended: Only a null value at a *top-level* leaf is
dropped during denesting (the `value is None: continue` branch of
`denest_record`); a null value at a leaf inside a nested object is
materialized by `denest_subrecord`, which assigns it to the flattened
row under the compound column name `current_path__prop`. -/
theorem denest_null_leaf_amended :
    (∀ (fuel : Nat) (table_name prop : String) (denested_record : PgRecord)
        (records_map : RecordsMap) (key_properties : List String)
        (pk_fks : PgRecord) (level : Int),
      denest_record_loop (fuel + 2) table_name none denested_record
          [(prop, Value.null)] records_map key_properties pk_fks level =
        .ok (denested_record, records_map)) ∧
    (∀ (fuel : Nat) (table_name current_path prop : String)
        (parent_record : PgRecord) (records_map : RecordsMap)
        (key_properties : List String) (pk_fks : PgRecord) (level : Int),
      denest_subrecord (fuel + 2) table_name current_path parent_record
          [(prop, Value.null)] records_map key_properties pk_fks level =
        .ok (dict_set parent_record (current_path ++ SEPARATOR ++ prop)
              Value.null, records_map)) := by
  constructor
  · intro fuel table_name prop denested_record records_map key_properties pk_fks level
    simp [denest_record_loop]
  · intro fuel table_name current_path prop parent_record records_map key_properties
      pk_fks level
    simp [denest_subrecord]

/-- C6: The claim says an object nested inside another object has
its scalar leaves inlined under compound names.  Evaluating the code at
the record `{a: {b: {c: 1}}}` shows the opposite: the `dict` branch of
`denest_subrecord` (line 245) calls itself with six of its eight
required positional arguments, so Python raises `TypeError` before any
leaf is inlined — the batch fails instead of flattening. -/
theorem denest_object_in_object_raises :
    denest_records 32 "s"
        [.obj [("a", .obj [("b", .obj [("c", .int 1)])])]] [] [] [] (-1) =
      .error DenestError.badCall := by
  rfl

/-! ### The `json_schema` helper module

`target_postgres.json_schema` is an external pure helper (spec §1,
out-of-scope collaborator; §6 lists its contract) and its source is not
in the tree, so it is modelled from the spec: a column schema is an
underlying type plus a nullability flag; `get_type` returns the JSON
type (with nullability, as the schema's `type` entry carries `'null'`);
`to_sql` maps to a SQL type with a `NOT NULL` marker for non-nullable
columns; `sql_shorthand` is a stable injective short tag of the
underlying type (spec §8: integer ↦ `i`, string ↦ `s`). -/

structure JSchema where
  typ : String
  nullable : Bool
deriving DecidableEq, Repr

namespace json_schema

/-- Modelled from the spec: `json_schema.get_type(schema)`. -/
def get_type (s : JSchema) : String × Bool := (s.typ, s.nullable)

/-- Modelled from the spec: `json_schema.is_nullable(schema)`. -/
def is_nullable (s : JSchema) : Bool := s.nullable

/-- Modelled from the spec: `json_schema.make_nullable(schema)`. -/
def make_nullable (s : JSchema) : JSchema := { s with nullable := true }

/-- Modelled from the spec: the SQL type underlying a JSON type. -/
def sql_type_of : String → String
  | "integer" => "bigint"
  | "number" => "double precision"
  | "boolean" => "boolean"
  | "string" => "text"
  | t => t

/-- Modelled from the spec: `json_schema.to_sql(schema)`. -/
def to_sql (s : JSchema) : String :=
  sql_type_of s.typ ++ (if s.nullable then "" else " NOT NULL")

/-- Modelled from the spec: `json_schema.sql_shorthand(schema)`. -/
def sql_shorthand (s : JSchema) : String :=
  match s.typ with
  | "integer" => "i"
  | "number" => "f"
  | "boolean" => "b"
  | "string" => "s"
  | t => t

end json_schema

/-! ### Remote schema state and the schema reconciler
(postgres.py lines 604-757)

`RemoteSchemaState` is the in-memory remote table schema that
`merge_put_schemas` mutates: the structural properties
(`existing_schema['schema']['properties']`) and the sidecar `mappings`.
DDL side effects on the live table are recorded as an ordered `DdlOp`
list.  `is_table_empty` is queried per `add_column`; within one
reconcile of a table that is not being written between the checks it is
a fixed snapshot, passed as `table_empty`. -/

structure ColumnMapping where
  type_tag : String × Bool
  from_field : String
deriving DecidableEq, Repr

structure RemoteSchemaState where
  name : String
  properties : List (String × JSchema)
  mappings : List (String × ColumnMapping)
deriving DecidableEq, Repr

inductive DdlOp where
  | addColumn (table column data_type : String)
  | makeColumnNullable (table column : String)
  | migrateColumn (table column mapped : String)
  | dropColumn (table column : String)
  | addColumnMapping (table mapped : String) (m : ColumnMapping)
deriving DecidableEq, Repr

inductive PgErr where
  | keyPropertiesChange (existing streamed : List String)
  | keyPropertyTypeChange (key : String) (existing streamed : String × Bool)
  | pyKeyError
  | cannotHandleColumnTypeChange (postgres_schema table_name name mapped : String)
  | tableAlreadyExists (table_name : String)
deriving DecidableEq, Repr

/-- Helper `d.filter` dropping key `k`: Python `del d[k]`. -/
def dict_del {α : Type} (r : List (String × α)) (k : String) : List (String × α) :=
  r.filter fun kv => !(kv.1 == k)

theorem lookup_eq_none_forall {β : Type} {l : List (String × β)} {k : String} :
    List.lookup k l = none ↔ ∀ p ∈ l, ¬(k = p.1) := by
  induction l with
  | nil => simp
  | cons hd tl ih =>
      obtain ⟨a, b⟩ := hd
      by_cases h : k = a
      · subst h
        simp [List.lookup]
      · have hb : (k == a) = false := beq_eq_false_iff_ne.mpr h
        simp [List.lookup, hb, ih, h]

theorem lookup_some_mem {β : Type} {l : List (String × β)} {k : String} {v : β}
    (h : List.lookup k l = some v) : (k, v) ∈ l := by
  induction l with
  | nil => simp [List.lookup] at h
  | cons hd tl ih =>
      obtain ⟨a, b⟩ := hd
      by_cases hk : k = a
      · subst hk
        simp [List.lookup] at h
        simp [h]
      · have hb : (k == a) = false := beq_eq_false_iff_ne.mpr hk
        simp [List.lookup, hb] at h
        exact List.mem_cons_of_mem _ (ih h)

/-- Function `mapping_name` (postgres.py lines 649-650):
`field + SEPARATOR + sql_shorthand(schema)`. -/
def mapping_name (field : String) (schema : JSchema) : String :=
  field ++ SEPARATOR ++ json_schema.sql_shorthand schema

/-- Function `get_mapping` (postgres.py lines 652-660): the type-tagged column
name, provided the sidecar records it as derived from `field`. -/
def get_mapping (metadata : RemoteSchemaState) (field : String) (schema : JSchema) :
    Option String :=
  let typed_field := mapping_name field schema
  match List.lookup typed_field metadata.mappings with
  | some m => if m.from_field == field then some typed_field else none
  | none => none

/-- The column type `add_column` (postgres.py lines 505-523) actually
issues: a non-nullable column added to a non-empty table is forced
nullable (with a logged warning). -/
def add_column_data_type (table_empty : Bool) (column_schema : JSchema) : String :=
  if !(json_schema.is_nullable column_schema) && !table_empty then
    json_schema.to_sql (json_schema.make_nullable column_schema)
  else
    json_schema.to_sql column_schema

/-- Function `split_column` (postgres.py lines 662-705): replace column `c` of
existing type `t₁`, arriving with incompatible type `t₂`, by the two
nullable columns `c__short(t₁)` and `c__short(t₂)`, record both sidecar
mappings, copy the old data into the first, and drop `c`. -/
def split_column (table_name column_name : String) (column_schema : JSchema)
    (st : RemoteSchemaState) (table_empty : Bool) :
    Except PgErr (RemoteSchemaState × List DdlOp) :=
  match List.lookup column_name st.properties with
  | none => .error .pyKeyError
  | some existing_col_schema =>
      let existing_column_mapping := mapping_name column_name existing_col_schema
      let new_column_mapping := mapping_name column_name column_schema
      let mapped_existing := json_schema.make_nullable existing_col_schema
      let mapped_new := json_schema.make_nullable column_schema
      let props := dict_set
        (dict_set st.properties existing_column_mapping mapped_existing)
        new_column_mapping mapped_new
      let m1 : ColumnMapping := ⟨json_schema.get_type mapped_existing, column_name⟩
      let m2 : ColumnMapping := ⟨json_schema.get_type mapped_new, column_name⟩
      let mappings' := dict_set (dict_set st.mappings existing_column_mapping m1)
        new_column_mapping m2
      let ops := [
        DdlOp.addColumnMapping table_name existing_column_mapping m1,
        DdlOp.addColumnMapping table_name new_column_mapping m2,
        DdlOp.addColumn table_name existing_column_mapping
          (add_column_data_type table_empty mapped_existing),
        DdlOp.addColumn table_name new_column_mapping
          (add_column_data_type table_empty mapped_new),
        DdlOp.migrateColumn table_name column_name existing_column_mapping,
        DdlOp.dropColumn table_name column_name]
      let st' : RemoteSchemaState :=
        { st with
          properties := dict_del props column_name
          mappings := mappings' }
      .ok (st', ops)

/-- The six-way case dispatch of the `merge_put_schemas` loop body
(postgres.py lines 710-757), as a pure classifier over one
`(name, schema)` pair against the current remote schema state. -/
inductive MergeCase where
  | mapped
  | newColumn
  | widenNull
  | compatible
  | split
  | conflict
deriving DecidableEq, Repr

def resolve_case (st : RemoteSchemaState) (name : String) (schema : JSchema) :
    MergeCase :=
  if (get_mapping st name schema).isSome then .mapped
  else
    match List.lookup name st.properties with
    | none => .newColumn
    | some ex =>
        if !(json_schema.is_nullable ex) &&
            (json_schema.get_type schema ==
              json_schema.get_type (json_schema.make_nullable ex)) then
          .widenNull
        else if json_schema.to_sql (json_schema.make_nullable schema) ==
            json_schema.to_sql (json_schema.make_nullable ex) then
          .compatible
        else if (List.lookup (mapping_name name schema) st.properties).isNone &&
            (List.lookup (mapping_name name ex) st.properties).isNone then
          .split
        else
          .conflict

/-- One iteration of the `for name, schema in new_properties.items()`
loop of `merge_put_schemas` (postgres.py lines 710-757), with its
actions. -/
def merge_put_entry (postgres_schema : String) (table_empty : Bool)
    (table_name : String) (st : RemoteSchemaState) (name : String)
    (schema : JSchema) : Except PgErr (RemoteSchemaState × List DdlOp) :=
  if (get_mapping st name schema).isSome then .ok (st, [])
  else
    match List.lookup name st.properties with
    | none =>
        .ok ({ st with properties := dict_set st.properties name schema },
          [DdlOp.addColumn table_name name (add_column_data_type table_empty schema)])
    | some ex =>
        if !(json_schema.is_nullable ex) &&
            (json_schema.get_type schema ==
              json_schema.get_type (json_schema.make_nullable ex)) then
          .ok ({ st with properties :=
                  dict_set st.properties name (json_schema.make_nullable ex) },
            [DdlOp.makeColumnNullable table_name name])
        else if json_schema.to_sql (json_schema.make_nullable schema) ==
            json_schema.to_sql (json_schema.make_nullable ex) then
          .ok (st, [])
        else if (List.lookup (mapping_name name schema) st.properties).isNone &&
            (List.lookup (mapping_name name ex) st.properties).isNone then
          split_column table_name name schema st table_empty
        else
          .error (.cannotHandleColumnTypeChange postgres_schema table_name name
            (mapping_name name schema))

/-- Function `merge_put_schemas` (postgres.py lines 707-757): fold the loop body
over the incoming properties, threading the mutated remote schema state
and collecting the issued DDL. -/
def merge_put_schemas (postgres_schema : String) (table_empty : Bool)
    (table_name : String) (st : RemoteSchemaState)
    (new_properties : List (String × JSchema)) :
    Except PgErr (RemoteSchemaState × List DdlOp) :=
  match new_properties with
  | [] => .ok (st, [])
  | (name, schema) :: rest => do
      let r ← merge_put_entry postgres_schema table_empty table_name st name schema
      let r' ← merge_put_schemas postgres_schema table_empty table_name r.1 rest
      .ok (r'.1, r.2 ++ r'.2)

/-- C8: For every `(name, schema)` pair in the incoming
properties, the `merge_put_schemas` loop body resolves exactly one of
six cases, tested in this order: existing sidecar mapping (no-op); name
not in remote properties (add column); remote column non-nullable and
incoming the same type but nullable (DROP NOT NULL); nullable-equalized
SQL types equal (no-op); neither type-split target name already present
(type split); otherwise a fatal `PostgresError` "Cannot handle column
type change".  Each equivalence characterizes one case as its own guard
plus the negation of all earlier guards, and the loop body returns an
error exactly in the final case. -/
theorem merge_put_schemas_case_order (postgres_schema table_name : String)
    (table_empty : Bool) (st : RemoteSchemaState) (name : String)
    (schema : JSchema) :
    (resolve_case st name schema = .mapped ↔
      (get_mapping st name schema).isSome = true) ∧
    (resolve_case st name schema = .newColumn ↔
      (get_mapping st name schema).isSome = false ∧
      List.lookup name st.properties = none) ∧
    (resolve_case st name schema = .widenNull ↔
      (get_mapping st name schema).isSome = false ∧
      ∃ ex, List.lookup name st.properties = some ex ∧
        json_schema.is_nullable ex = false ∧
        json_schema.get_type schema =
          json_schema.get_type (json_schema.make_nullable ex)) ∧
    (resolve_case st name schema = .compatible ↔
      (get_mapping st name schema).isSome = false ∧
      ∃ ex, List.lookup name st.properties = some ex ∧
        ¬(json_schema.is_nullable ex = false ∧
          json_schema.get_type schema =
            json_schema.get_type (json_schema.make_nullable ex)) ∧
        json_schema.to_sql (json_schema.make_nullable schema) =
          json_schema.to_sql (json_schema.make_nullable ex)) ∧
    (resolve_case st name schema = .split ↔
      (get_mapping st name schema).isSome = false ∧
      ∃ ex, List.lookup name st.properties = some ex ∧
        ¬(json_schema.is_nullable ex = false ∧
          json_schema.get_type schema =
            json_schema.get_type (json_schema.make_nullable ex)) ∧
        json_schema.to_sql (json_schema.make_nullable schema) ≠
          json_schema.to_sql (json_schema.make_nullable ex) ∧
        List.lookup (mapping_name name schema) st.properties = none ∧
        List.lookup (mapping_name name ex) st.properties = none) ∧
    (resolve_case st name schema = .conflict ↔
      (get_mapping st name schema).isSome = false ∧
      ∃ ex, List.lookup name st.properties = some ex ∧
        ¬(json_schema.is_nullable ex = false ∧
          json_schema.get_type schema =
            json_schema.get_type (json_schema.make_nullable ex)) ∧
        json_schema.to_sql (json_schema.make_nullable schema) ≠
          json_schema.to_sql (json_schema.make_nullable ex) ∧
        ¬(List.lookup (mapping_name name schema) st.properties = none ∧
          List.lookup (mapping_name name ex) st.properties = none)) ∧
    ((∃ e, merge_put_entry postgres_schema table_empty table_name st name schema =
        .error e) ↔
      resolve_case st name schema = .conflict) := by
  have hbool : ∀ ex : JSchema,
      ((!(json_schema.is_nullable ex) &&
        (json_schema.get_type schema ==
          json_schema.get_type (json_schema.make_nullable ex))) = true) ↔
      (json_schema.is_nullable ex = false ∧
        json_schema.get_type schema =
          json_schema.get_type (json_schema.make_nullable ex)) := by
    intro ex
    simp
  by_cases h1 : (get_mapping st name schema).isSome = true
  · simp [resolve_case, merge_put_entry, h1]
  · have h1' : (get_mapping st name schema).isSome = false := by simpa using h1
    cases hl : List.lookup name st.properties with
    | none => simp [resolve_case, merge_put_entry, h1', hl]
    | some ex =>
        by_cases h3 : (!(json_schema.is_nullable ex) &&
            (json_schema.get_type schema ==
              json_schema.get_type (json_schema.make_nullable ex))) = true
        · obtain ⟨h3a, h3b⟩ := (hbool ex).mp h3
          simp [resolve_case, merge_put_entry, h1', hl, h3, h3a, h3b]
        · have h3' : (!(json_schema.is_nullable ex) &&
              (json_schema.get_type schema ==
                json_schema.get_type (json_schema.make_nullable ex))) = false := by
            simpa using h3
          have h3p : ¬(json_schema.is_nullable ex = false ∧
              json_schema.get_type schema =
                json_schema.get_type (json_schema.make_nullable ex)) := by
            rw [← hbool ex]
            simp [h3']
          by_cases h4 : (json_schema.to_sql (json_schema.make_nullable schema) ==
              json_schema.to_sql (json_schema.make_nullable ex)) = true
          · have h4p : json_schema.to_sql (json_schema.make_nullable schema) =
                json_schema.to_sql (json_schema.make_nullable ex) := by
              simpa using h4
            simp [resolve_case, merge_put_entry, h1', hl, h3', h4, h3p, h4p]
            exact fun ha hb => h3p ⟨ha, hb⟩
          · have h4' : (json_schema.to_sql (json_schema.make_nullable schema) ==
                json_schema.to_sql (json_schema.make_nullable ex)) = false := by
              simpa using h4
            have h4p : json_schema.to_sql (json_schema.make_nullable schema) ≠
                json_schema.to_sql (json_schema.make_nullable ex) := by
              simpa using h4
            by_cases h5 : ((List.lookup (mapping_name name schema) st.properties).isNone &&
                (List.lookup (mapping_name name ex) st.properties).isNone) = true
            · have h5p : List.lookup (mapping_name name schema) st.properties = none ∧
                  List.lookup (mapping_name name ex) st.properties = none := by
                simpa [Option.isNone_iff_eq_none] using h5
              simp [resolve_case, merge_put_entry, split_column, h1', hl, h3', h4',
                h5, h3p, h4p, h5p.1, h5p.2]
              exact ⟨⟨fun ha hb => h3p ⟨ha, hb⟩,
                  fun a b hab heq => lookup_eq_none_forall.mp h5p.2 (a, b) hab heq⟩,
                fun _ x hx => lookup_eq_none_forall.mp h5p.2 (mapping_name name ex, x) hx rfl⟩
            · have h5' : ((List.lookup (mapping_name name schema) st.properties).isNone &&
                  (List.lookup (mapping_name name ex) st.properties).isNone) = false := by
                simpa using h5
              have h5p : ¬(List.lookup (mapping_name name schema) st.properties = none ∧
                  List.lookup (mapping_name name ex) st.properties = none) := by
                simpa [Option.isNone_iff_eq_none] using h5
              have hso : (∀ (a : String) (b : JSchema), (a, b) ∈ st.properties →
                  ¬(mapping_name name schema = a)) →
                  ∃ x, (mapping_name name ex, x) ∈ st.properties := by
                intro hforall
                have hsnone : List.lookup (mapping_name name schema) st.properties = none :=
                  lookup_eq_none_forall.mpr (fun p hp he => hforall p.1 p.2 hp he)
                have hexne : ¬(List.lookup (mapping_name name ex) st.properties = none) :=
                  fun hen => h5p ⟨hsnone, hen⟩
                obtain ⟨v, hv⟩ := Option.ne_none_iff_exists'.mp hexne
                exact ⟨v, lookup_some_mem hv⟩
              simp [resolve_case, merge_put_entry, h1', hl, h3', h4', h5', h3p, h4p, h5p]
              exact ⟨fun _ => hso, fun ha hb => h3p ⟨ha, hb⟩, hso⟩

/-! ### The `write_batch` transaction shell (postgres.py lines 45-162)

`write_batch` opens a cursor, runs `BEGIN;`, executes the whole batch
body, and runs `COMMIT;`; on any exception it runs `ROLLBACK;`, logs,
and re-raises the exception wrapped in
`PostgresError('Exception writing records', ex)`.
`stream_buffer.flush_buffer()` (line 162) sits after the `with` block,
so it runs only when no exception escaped; the `count == 0` guard
(lines 46-47) returns before the transaction, also skipping the flush.
The transactional body is modelled as a function from the committed
database state to either a new state (kept by `COMMIT`) or an
exception (state discarded by `ROLLBACK`). -/

inductive WrappedError (E : Type) where
  | postgresError (msg : String) (cause : E)
deriving DecidableEq, Repr

structure WriteBatchResult (DB E : Type) where
  result : Except (WrappedError E) Unit
  db : DB
  committed : Bool
  flushed : Bool

def write_batch {DB E : Type} (count : Nat) (body : DB → Except E DB) (db : DB) :
    WriteBatchResult DB E :=
  if count = 0 then ⟨.ok (), db, false, false⟩
  else
    match body db with
    | .ok db' => ⟨.ok (), db', true, true⟩
    | .error ex =>
        ⟨.error (.postgresError "Exception writing records" ex), db, false, false⟩

/-! ### `write_batch` schema compatibility checks
(postgres.py lines 76-82 and 109-120)

Both checks run before `update_schema` (line 122), so a failing check
prevents any schema migration.  `write_batch_schema_phase` returning
`.ok true` marks that control reached the `update_schema` call. -/

structure CurrentTableSchema where
  key_properties : List String
  properties : List (String × JSchema)
  version : Option Int
deriving DecidableEq, Repr

structure StreamBufferSchema where
  key_properties : List String
  properties : List (String × JSchema)
deriving DecidableEq, Repr

/-- Python `set(a) == set(b)` on lists of strings. -/
def set_eq (a b : List String) : Bool :=
  (a.all fun x => b.contains x) && (b.all fun x => a.contains x)

/-- The `for key in stream_buffer.key_properties` loop of lines
109-120: each key's remote type must equal its streamed type; a key
missing from either property map is a Python `KeyError` (also fatal,
wrapped by the handler at line 156). -/
def write_batch_key_type_loop (current : Option CurrentTableSchema)
    (buf : StreamBufferSchema) : List String → Except PgErr Unit
  | [] => .ok ()
  | key :: rest =>
      match current with
      | none => write_batch_key_type_loop current buf rest
      | some cts =>
          match List.lookup key cts.properties with
          | none => .error .pyKeyError
          | some a =>
              match List.lookup key buf.properties with
              | none => .error .pyKeyError
              | some b =>
                  if json_schema.get_type a ≠ json_schema.get_type b then
                    .error (.keyPropertyTypeChange key (json_schema.get_type a)
                      (json_schema.get_type b))
                  else
                    write_batch_key_type_loop current buf rest

/-- Lines 76-82 then 109-120: the key-property set check (only against
an existing remote table) followed by the per-key type check. -/
def write_batch_key_checks (current : Option CurrentTableSchema)
    (buf : StreamBufferSchema) : Except PgErr Unit :=
  match current with
  | some cts =>
      if set_eq buf.key_properties cts.key_properties then
        write_batch_key_type_loop current buf buf.key_properties
      else
        .error (.keyPropertiesChange cts.key_properties buf.key_properties)
  | none => write_batch_key_type_loop current buf buf.key_properties

/-- The checks followed by reaching `update_schema` (line 122):
`.ok true` means the schema migration is performed. -/
def write_batch_schema_phase (current : Option CurrentTableSchema)
    (buf : StreamBufferSchema) : Except PgErr Bool :=
  match write_batch_key_checks current buf with
  | .ok _ => .ok true
  | .error e => .error e

/-! ### `write_batch` table-version collection (postgres.py lines 57-98)

`versions` is the Python set of per-record `_sdc_table_version` values
(possibly containing `None`).  Line 89 evaluates
`current_table_version is not None and min(versions) < current_table_version`:
Python's `min` over a set of two or more elements compares them
pairwise and raises `TypeError` as soon as `None` meets an `int`; a
comparison of a `None` minimum against an `int` raises `TypeError` as
well.  Any such exception is caught by the handler at line 156 and
re-raised as a `PostgresError`. -/

inductive PyExc where
  | typeError
  | valueError
deriving DecidableEq, Repr

/-- Python set construction: first-occurrence deduplication (iteration
order does not matter for the uses below). -/
def py_set (l : List (Option Int)) : List (Option Int) :=
  l.foldl (fun acc x => if acc.contains x then acc else acc ++ [x]) []

/-- Python `min` over a set of optional ints: a singleton is returned
without comparison; two or more elements including `None` raise
`TypeError`. -/
def py_min_versions : List (Option Int) → Except PyExc (Option Int)
  | [] => .error .valueError
  | [x] => .ok x
  | x :: y :: rest =>
      if (x :: y :: rest).contains none then .error .typeError
      else
        match (x :: y :: rest).filterMap (fun v => v) with
        | [] => .error .typeError
        | i :: is => .ok (some (is.foldl min i))

/-- Python `a < b` for `a : Optional[int]`, `b : int`. -/
def py_lt_version (a : Option Int) (b : Int) : Except PyExc Bool :=
  match a with
  | none => .error .typeError
  | some x => .ok (decide (x < b))

structure VersionWarnings where
  earlier : Bool
  multiple : Bool
deriving DecidableEq, Repr

/-- Lines 84-98 of `write_batch`: compute which advisory warnings are
logged ("records from an earlier table version", "multiple table
versions in stream").  The earlier-version test at line 89 runs first
and can raise. -/
def write_batch_version_phase (record_versions : List (Option Int))
    (current_table_version : Option Int) : Except PyExc VersionWarnings :=
  let versions := py_set record_versions
  match current_table_version with
  | none => .ok ⟨false, decide (versions.length > 1)⟩
  | some c =>
      match py_min_versions versions with
      | .error e => .error e
      | .ok m =>
          match py_lt_version m c with
          | .error e => .error e
          | .ok lt => .ok ⟨lt, decide (versions.length > 1)⟩

/-! ### The `persist_rows` CSV row builder (postgres.py lines 410-496)

Inside `transform`, each resolved `(field_name, value)` write lands in
`row` only under the guard of lines 467-471: the column is not yet
written, or holds Python `None`, or holds the reserved `'NULL'`
sentinel.  Values are modelled as `Option String` with `none` for
Python `None` (by line 457 the written value itself is never `None`:
nulls were already replaced by the sentinel). -/

def RESERVED_NULL_DEFAULT : String := "NULL"

abbrev CsvValue := Option String

/-- Output column resolution (lines 459-465): a field present in the
streamed schema writes into its sidecar-mapped column when one exists,
else into itself. -/
def persist_rows_field_name (remote_schema : RemoteSchemaState)
    (streamed_properties : List (String × JSchema)) (field : String) : String :=
  match List.lookup field streamed_properties with
  | some s => (get_mapping remote_schema field s).getD field
  | none => field

/-- The collision-guarded write of lines 467-471. -/
def persist_rows_set_value (row : List (String × CsvValue)) (field_name : String)
    (value : CsvValue) : List (String × CsvValue) :=
  if List.lookup field_name row = none ∨
      List.lookup field_name row = some none ∨
      List.lookup field_name row = some (some RESERVED_NULL_DEFAULT) then
    dict_set row field_name value
  else
    row

/-- The whole `for field in fields` accumulation over already-resolved
`(field_name, value)` pairs. -/
def persist_rows_build_row (resolved : List (String × CsvValue)) :
    List (String × CsvValue) :=
  resolved.foldl (fun row fv => persist_rows_set_value row fv.1 fv.2) []

/-! ### Sidecar metadata writer/reader
(postgres.py lines 547-601, 619-624)

A table is its column list, its comment, and an emptiness flag backing
`is_table_empty`.  `set_table_metadata` serializes exactly the three
recognized keys (with defaults) into the comment; the JSON round trip
through `json.dumps`/`json.loads` is modelled as the identity, so a
comment is a parsed `TableMetadata`.  `get_table_metadata` reads
`obj_description`, which is null for a missing table or a table without
a comment. -/

structure TableMetadata where
  key_properties : List String
  version : Option Int
  mappings : List (String × ColumnMapping)
deriving DecidableEq, Repr

structure MetadataInput where
  key_properties : Option (List String)
  version : Option Int
  mappings : Option (List (String × ColumnMapping))
deriving DecidableEq, Repr

structure PgTable where
  columns : List (String × String)
  comment : Option TableMetadata
  empty : Bool
deriving DecidableEq, Repr

abbrev DBState := List (String × PgTable)

def db_update (db : DBState) (t : String) (f : PgTable → PgTable) : DBState :=
  match db with
  | [] => []
  | (n, tb) :: rest =>
      if n == t then (n, f tb) :: rest else (n, tb) :: db_update rest t f

/-- Function `set_table_metadata` (lines 547-564): `metadata.get(...)` defaults
applied, then `COMMENT ON TABLE`. -/
def set_table_metadata (db : DBState) (table_name : String)
    (metadata : MetadataInput) : DBState :=
  let parsed_metadata : TableMetadata :=
    ⟨metadata.key_properties.getD [], metadata.version, metadata.mappings.getD []⟩
  db_update db table_name fun tb => { tb with comment := some parsed_metadata }

/-- Function `add_column` (lines 505-523) as a state update: append the column
with the type `ALTER TABLE … ADD COLUMN` actually uses. -/
def pg_add_column (db : DBState) (table_name prop : String)
    (column_json_schema : JSchema) : DBState :=
  db_update db table_name fun tb =>
    { tb with columns :=
        tb.columns ++ [(prop, add_column_data_type tb.empty column_json_schema)] }

/-- Function `create_table` (postgres.py lines 567-580): `CREATE TABLE … ();`
(fails if the name exists), then — only for a truthy `key_properties`
list — `set_table_metadata` with the key properties and version, then
one `add_column` per schema property. -/
def create_table (db : DBState) (table_name : String)
    (schema : List (String × JSchema)) (key_properties : List String)
    (table_version : Option Int) : Except PgErr DBState :=
  if (List.lookup table_name db).isSome then .error (.tableAlreadyExists table_name)
  else
    let db1 := db ++ [(table_name, ⟨[], none, true⟩)]
    let db2 :=
      if key_properties.isEmpty then db1
      else set_table_metadata db1 table_name ⟨some key_properties, table_version, none⟩
    .ok (schema.foldl (fun d pc => pg_add_column d table_name pc.1 pc.2) db2)

/-- Function `get_table_metadata` (lines 585-601): the parsed comment, or null
for a missing table or missing comment. -/
def get_table_metadata (db : DBState) (table_name : String) : Option TableMetadata :=
  match List.lookup table_name db with
  | none => none
  | some tb => tb.comment

/-- Witness for `merge_put_schemas_case_order`: with remote column `x`
of non-nullable integer type, incoming nullable string, and the
type-split target `x__s` already taken, the loop body resolves
`conflict` and errors. -/
theorem merge_put_schemas_case_order_witness :
    (∃ e, merge_put_entry "public" false "tbl"
        ⟨"tbl", [("x", ⟨"integer", false⟩), ("x__s", ⟨"string", true⟩)], []⟩
        "x" ⟨"string", true⟩ = .error e) ↔
      resolve_case
        ⟨"tbl", [("x", ⟨"integer", false⟩), ("x__s", ⟨"string", true⟩)], []⟩
        "x" ⟨"string", true⟩ = .conflict :=
  (merge_put_schemas_case_order "public" "tbl" false
    ⟨"tbl", [("x", ⟨"integer", false⟩), ("x__s", ⟨"string", true⟩)], []⟩
    "x" ⟨"string", true⟩).2.2.2.2.2.2

/-- C3: If the transactional body of `write_batch` raises, the
transaction is rolled back (the database state is unchanged), the
exception is re-raised wrapped in
`PostgresError('Exception writing records', ex)`, and the stream
buffer is not flushed; moreover `flush_buffer` runs exactly when the
batch commits. -/
theorem write_batch_rollback_wraps_and_skips_flush {DB E : Type}
    (count : Nat) (body : DB → Except E DB) (db : DB) (e : E)
    (hcount : count ≠ 0) (hbody : body db = .error e) :
    write_batch count body db =
      ⟨.error (.postgresError "Exception writing records" e), db, false, false⟩ ∧
    ∀ (count' : Nat) (body' : DB → Except E DB) (db' : DB),
      (write_batch count' body' db').flushed =
        (write_batch count' body' db').committed := by
  constructor
  · simp [write_batch, hcount, hbody]
  · intro count' body' db'
    by_cases h : count' = 0
    · simp [write_batch, h]
    · cases hb : body' db' <;> simp [write_batch, h, hb]

/-- Witness for `write_batch_rollback_wraps_and_skips_flush` at a
concrete failing body. -/
theorem write_batch_rollback_witness :
    write_batch 1 (fun _ : Nat => (Except.error "boom" : Except String Nat)) 42 =
      ⟨.error (.postgresError "Exception writing records" "boom"), 42, false, false⟩ ∧
    ∀ (count' : Nat) (body' : Nat → Except String Nat) (db' : Nat),
      (write_batch count' body' db').flushed =
        (write_batch count' body' db').committed :=
  write_batch_rollback_wraps_and_skips_flush 1
    (fun _ => .error "boom") 42 "boom" (by decide) rfl

theorem write_batch_key_type_loop_error (cts : CurrentTableSchema)
    (buf : StreamBufferSchema) :
    ∀ keys : List String,
      (∃ k ∈ keys,
        (List.lookup k cts.properties).isSome = true ∧
        (List.lookup k buf.properties).isSome = true ∧
        (List.lookup k cts.properties).map json_schema.get_type ≠
          (List.lookup k buf.properties).map json_schema.get_type) →
      ∃ e, write_batch_key_type_loop (some cts) buf keys = .error e := by
  intro keys
  induction keys with
  | nil =>
      rintro ⟨k, hk, -⟩
      simp at hk
  | cons key rest ih =>
      rintro ⟨k, hk, hs1, hs2, hne⟩
      cases hl1 : List.lookup key cts.properties with
      | none =>
          exact ⟨PgErr.pyKeyError, by simp [write_batch_key_type_loop, hl1]⟩
      | some a =>
          cases hl2 : List.lookup key buf.properties with
          | none =>
              exact ⟨PgErr.pyKeyError, by simp [write_batch_key_type_loop, hl1, hl2]⟩
          | some b =>
              by_cases heq : json_schema.get_type a = json_schema.get_type b
              · rcases List.mem_cons.mp hk with rfl | hkr
                · rw [hl1, hl2] at hne
                  simp [heq] at hne
                · obtain ⟨e, he⟩ := ih ⟨k, hkr, hs1, hs2, hne⟩
                  exact ⟨e, by simp [write_batch_key_type_loop, hl1, hl2, heq, he]⟩
              · exact ⟨PgErr.keyPropertyTypeChange key (json_schema.get_type a)
                    (json_schema.get_type b),
                  by simp [write_batch_key_type_loop, hl1, hl2, heq]⟩

/-- C4: Against an existing remote table, `write_batch` raises a
fatal `PostgresError` when the buffer's `key_properties` set differs
from the remote sidecar's, and also when any key column's type in the
incoming schema differs from its remote type; in either case the
schema phase errors out, so `update_schema` (the migration) is never
reached. -/
theorem write_batch_key_mismatch_fatal (cts : CurrentTableSchema)
    (buf : StreamBufferSchema)
    (h : set_eq buf.key_properties cts.key_properties = false ∨
      ∃ k ∈ buf.key_properties,
        (List.lookup k cts.properties).isSome = true ∧
        (List.lookup k buf.properties).isSome = true ∧
        (List.lookup k cts.properties).map json_schema.get_type ≠
          (List.lookup k buf.properties).map json_schema.get_type) :
    ∃ e, write_batch_schema_phase (some cts) buf = .error e := by
  rcases h with h | hbad
  · exact ⟨PgErr.keyPropertiesChange cts.key_properties buf.key_properties,
      by simp [write_batch_schema_phase, write_batch_key_checks, h]⟩
  · obtain ⟨e, he⟩ :=
      write_batch_key_type_loop_error cts buf buf.key_properties hbad
    by_cases hset : set_eq buf.key_properties cts.key_properties = true
    · exact ⟨e, by simp [write_batch_schema_phase, write_batch_key_checks, hset, he]⟩
    · have hset' : set_eq buf.key_properties cts.key_properties = false := by
        simpa using hset
      exact ⟨PgErr.keyPropertiesChange cts.key_properties buf.key_properties,
        by simp [write_batch_schema_phase, write_batch_key_checks, hset']⟩

/-- Witness for `write_batch_key_mismatch_fatal`: key column `id` is
`integer` remotely but `string` in the stream. -/
theorem write_batch_key_mismatch_fatal_witness :
    ∃ e, write_batch_schema_phase
        (some ⟨["id"], [("id", ⟨"integer", false⟩)], none⟩)
        ⟨["id"], [("id", ⟨"string", false⟩)]⟩ = .error e :=
  write_batch_key_mismatch_fatal
    ⟨["id"], [("id", ⟨"integer", false⟩)], none⟩
    ⟨["id"], [("id", ⟨"string", false⟩)]⟩
    (Or.inr ⟨"id", by decide⟩)

/-- C7: The claim says a batch mixing `_sdc_table_version` values
— the null version of unversioned records included — against a remote
table with a current version logs the two advisory warnings and
proceeds.  Evaluating the version phase at such a batch (versions
`{1, None}` against current version 1) shows the code instead raises:
`min(versions)` at line 90 compares `None` with an `int`, a Python
`TypeError`, which the handler at line 156 rolls back and re-raises as
a `PostgresError` — neither warning is logged and the batch fails. -/
theorem write_batch_mixed_version_batch_raises :
    write_batch_version_phase [some 1, none] (some 1) = .error PyExc.typeError := by
  rfl

/-- C9: While `persist_rows` builds a CSV row, the first writer of
an output column wins, except that a stored null/sentinel never shadows
a real value: a later write replaces the stored value exactly when the
column is not yet written, or its stored value is Python `None`, or it
is the reserved `'NULL'` sentinel. -/
theorem persist_rows_collision_rule (row : List (String × CsvValue))
    (field_name : String) (value : CsvValue) :
    (∀ s : String, List.lookup field_name row = some (some s) →
      s ≠ RESERVED_NULL_DEFAULT →
      persist_rows_set_value row field_name value = row) ∧
    (List.lookup field_name row = none →
      List.lookup field_name (persist_rows_set_value row field_name value) =
        some value) ∧
    (List.lookup field_name row = some none ∨
        List.lookup field_name row = some (some RESERVED_NULL_DEFAULT) →
      List.lookup field_name (persist_rows_set_value row field_name value) =
        some value) := by
  refine ⟨?_, ?_, ?_⟩
  · intro s hs hne
    have hcond : ¬(List.lookup field_name row = none ∨
        List.lookup field_name row = some none ∨
        List.lookup field_name row = some (some RESERVED_NULL_DEFAULT)) := by
      rw [hs]
      simp [hne]
    unfold persist_rows_set_value
    rw [if_neg hcond]
  · intro h
    unfold persist_rows_set_value
    rw [if_pos (Or.inl h)]
    exact lookup_dict_set_self row field_name value
  · intro h
    unfold persist_rows_set_value
    rw [if_pos (Or.inr h)]
    exact lookup_dict_set_self row field_name value

/-- Witness for `persist_rows_collision_rule`: a stored real value is
not overwritten; a stored sentinel is. -/
theorem persist_rows_collision_rule_witness :
    persist_rows_set_value [("c", some "hello")] "c" (some "x") =
      [("c", some "hello")] ∧
    List.lookup "c" (persist_rows_set_value [("c", some "NULL")] "c" (some "x")) =
      some (some "x") :=
  ⟨(persist_rows_collision_rule [("c", some "hello")] "c" (some "x")).1 "hello"
      rfl (by decide),
    (persist_rows_collision_rule [("c", some "NULL")] "c" (some "x")).2.2
      (Or.inr rfl)⟩

theorem lookup_db_update_self (db : DBState) (t : String) (f : PgTable → PgTable) :
    List.lookup t (db_update db t f) = (List.lookup t db).map f := by
  induction db with
  | nil => simp [db_update]
  | cons hd tl ih =>
      obtain ⟨n, tb⟩ := hd
      by_cases h : n = t
      · subst h
        simp [db_update, List.lookup]
      · have h1 : (n == t) = false := beq_eq_false_iff_ne.mpr h
        have h2 : (t == n) = false := beq_eq_false_iff_ne.mpr (Ne.symm h)
        simp [db_update, h1, List.lookup, h2, ih]

theorem lookup_cons_ne {β : Type} {k a : String} (b : β) (l : List (String × β))
    (h : (k == a) = false) : List.lookup k ((a, b) :: l) = List.lookup k l := by
  simp [List.lookup, h]

theorem lookup_append_of_none {β : Type} {l1 : List (String × β)} {k : String}
    (l2 : List (String × β)) (h : List.lookup k l1 = none) :
    List.lookup k (l1 ++ l2) = List.lookup k l2 := by
  induction l1 with
  | nil => simp
  | cons hd tl ih =>
      obtain ⟨a, b⟩ := hd
      by_cases hk : k = a
      · subst hk
        simp [List.lookup] at h
      · have hb : (k == a) = false := beq_eq_false_iff_ne.mpr hk
        rw [lookup_cons_ne b tl hb] at h
        rw [List.cons_append, lookup_cons_ne b (tl ++ l2) hb]
        exact ih h

theorem add_columns_preserve_comment (tname : String) :
    ∀ (schema : List (String × JSchema)) (db : DBState),
      (List.lookup tname
          (schema.foldl (fun d pc => pg_add_column d tname pc.1 pc.2) db)).map
        PgTable.comment = (List.lookup tname db).map PgTable.comment := by
  intro schema
  induction schema with
  | nil => intro db; rfl
  | cons pc rest ih =>
      intro db
      rw [List.foldl_cons, ih]
      show (List.lookup tname (db_update db tname _)).map PgTable.comment = _
      rw [lookup_db_update_self]
      cases List.lookup tname db <;> simp

/-- C10: `create_table` persists sidecar metadata (key properties
and version, via the table comment) only when the `key_properties`
list is non-empty.  For an empty key-property list no comment is set on
the newly created table — its version and mappings are never persisted
and `get_table_metadata` on it returns null — while a non-empty list
yields a comment carrying exactly the key properties, the version, and
empty mappings. -/
theorem create_table_sidecar_only_with_key_properties (db : DBState)
    (table_name : String) (schema : List (String × JSchema))
    (table_version : Option Int)
    (hfresh : List.lookup table_name db = none) :
    (∃ db', create_table db table_name schema [] table_version = .ok db' ∧
      (List.lookup table_name db').map PgTable.comment = some none ∧
      get_table_metadata db' table_name = none) ∧
    (∀ key_properties : List String, key_properties ≠ [] →
      ∃ db', create_table db table_name schema key_properties table_version = .ok db' ∧
        get_table_metadata db' table_name =
          some ⟨key_properties, table_version, []⟩) := by
  have hnotsome : (List.lookup table_name db).isSome = false := by simp [hfresh]
  have hlookup1 :
      List.lookup table_name (db ++ [(table_name, (⟨[], none, true⟩ : PgTable))]) =
        some ⟨[], none, true⟩ := by
    rw [lookup_append_of_none _ hfresh]
    simp [List.lookup]
  constructor
  · refine ⟨schema.foldl (fun d pc => pg_add_column d table_name pc.1 pc.2)
        (db ++ [(table_name, (⟨[], none, true⟩ : PgTable))]), ?_, ?_, ?_⟩
    · simp [create_table, hnotsome]
    · rw [add_columns_preserve_comment, hlookup1]
      rfl
    · unfold get_table_metadata
      have hcm := add_columns_preserve_comment table_name schema
        (db ++ [(table_name, (⟨[], none, true⟩ : PgTable))])
      rw [hlookup1] at hcm
      cases hx : List.lookup table_name
          (schema.foldl (fun d pc => pg_add_column d table_name pc.1 pc.2)
            (db ++ [(table_name, (⟨[], none, true⟩ : PgTable))])) with
      | none => rfl
      | some tb =>
          rw [hx] at hcm
          simpa using hcm
  · intro key_properties hkp
    have hkpe : key_properties.isEmpty = false := by
      cases key_properties with
      | nil => exact absurd rfl hkp
      | cons a l => rfl
    refine ⟨schema.foldl (fun d pc => pg_add_column d table_name pc.1 pc.2)
        (set_table_metadata (db ++ [(table_name, (⟨[], none, true⟩ : PgTable))])
          table_name ⟨some key_properties, table_version, none⟩), ?_, ?_⟩
    · simp [create_table, hnotsome, hkpe]
    · unfold get_table_metadata
      have hcm := add_columns_preserve_comment table_name schema
        (set_table_metadata (db ++ [(table_name, (⟨[], none, true⟩ : PgTable))])
          table_name ⟨some key_properties, table_version, none⟩)
      have hmeta : List.lookup table_name
          (set_table_metadata (db ++ [(table_name, (⟨[], none, true⟩ : PgTable))])
            table_name ⟨some key_properties, table_version, none⟩) =
          some ⟨[], some ⟨key_properties, table_version, []⟩, true⟩ := by
        unfold set_table_metadata
        rw [lookup_db_update_self, hlookup1]
        rfl
      rw [hmeta] at hcm
      cases hx : List.lookup table_name
          (schema.foldl (fun d pc => pg_add_column d table_name pc.1 pc.2)
            (set_table_metadata (db ++ [(table_name, (⟨[], none, true⟩ : PgTable))])
              table_name ⟨some key_properties, table_version, none⟩)) with
      | none =>
          rw [hx] at hcm
          simp at hcm
      | some tb =>
          rw [hx] at hcm
          simpa using hcm

/-- Witness for `create_table_sidecar_only_with_key_properties` on an
empty database, one-column schema, and key properties `[]` / `["id"]`. -/
theorem create_table_sidecar_witness :
    (∃ db', create_table [] "s" [("x", ⟨"integer", true⟩)] [] (some 3) = .ok db' ∧
      (List.lookup "s" db').map PgTable.comment = some none ∧
      get_table_metadata db' "s" = none) ∧
    (∀ key_properties : List String, key_properties ≠ [] →
      ∃ db', create_table [] "s" [("x", ⟨"integer", true⟩)] key_properties (some 3) =
          .ok db' ∧
        get_table_metadata db' "s" = some ⟨key_properties, some 3, []⟩) :=
  create_table_sidecar_only_with_key_properties [] "s" [("x", ⟨"integer", true⟩)]
    (some 3) rfl

end TargetPostgres
